import Mathlib

/-!
# Verification of the investAnalyze scoring core

Shallow embedding of the rule-based scoring engine of the repository
(`src/utils/ai_predictor.py` and `src/utils/data_fetcher.py`).  Monetary
quantities, indicator values and scores are modelled as rationals (the
Python code uses IEEE doubles, but every scoring rule is a comparison or
a sum/product of decimal constants, exact in `ℚ`); the Sharpe-ratio
formulas, which involve `sqrt 252`, are modelled over `ℝ` with the square
root carried as an explicit parameter `s` satisfying `s ^ 2 = 252`.
Python `dict.get` with a default is modelled by `Option.getD`; a Python
float expression that evaluates to a non-finite IEEE value (`inf`/`nan`,
from a division by zero) is modelled as `none` in an `Option`-valued
result.
-/

namespace InvestAnalyze

/-! ## Equity scoring engine (`_get_advanced_stock_analysis`, lines 147-211)

The function first derives `sma_20`, `sma_50`, `rsi`, `volume_trend`,
`sentiment_score`, `market_cap` and `pe_ratio` from its inputs and then
scores those values.  The scoring rules below are translated line by line
from the Python; each rule chain keeps the `if`/`elif` structure of the
source.  Python truthiness of `pe_ratio` (`if pe_ratio and ...`) is
`pe ≠ 0` for a numeric value. -/

/-- Trend part of the technical score (ai_predictor.py lines 153-160). -/
def trendScore (price sma20 sma50 : ℚ) : ℚ :=
  if sma20 < price ∧ sma50 < price then 2
  else if sma20 < price then 1
  else if price < sma20 ∧ price < sma50 then -2
  else -1

/-- RSI part of the technical score (lines 162-165). -/
def rsiScore (rsi : ℚ) : ℚ :=
  if rsi < 30 then 1
  else if 70 < rsi then -1
  else 0

/-- Volume part of the technical score (lines 167-170);
`volTrend` is `recent_volume / avg_volume`. -/
def volumeScore (volTrend : ℚ) : ℚ :=
  if 1.2 < volTrend then 1
  else if volTrend < 0.8 then -0.5
  else 0

/-- `technical_score` (lines 152-170). -/
def technicalScore (price sma20 sma50 rsi volTrend : ℚ) : ℚ :=
  trendScore price sma20 sma50 + rsiScore rsi + volumeScore volTrend

/-- P/E part of the fundamental score (lines 172-178).  The Python guard
`if pe_ratio and ...` makes every rule dead when `pe_ratio == 0`. -/
def peScore (pe : ℚ) : ℚ :=
  if pe ≠ 0 ∧ 10 ≤ pe ∧ pe ≤ 25 then 1
  else if pe ≠ 0 ∧ pe < 10 then 2
  else if pe ≠ 0 ∧ 30 < pe then -1
  else 0

/-- Market-capitalisation part of the fundamental score (lines 180-184). -/
def mcapScore (mcap : ℚ) : ℚ :=
  if 200e9 < mcap then 0.5
  else if mcap < 2e9 then 1
  else 0

/-- `fundamental_score` (lines 172-184). -/
def fundamentalScore (pe mcap : ℚ) : ℚ := peScore pe + mcapScore mcap

/-- `sentiment_adjustment` (lines 186-194). -/
def sentimentAdjustment (senti : ℚ) : ℚ :=
  if 0.7 < senti then 1
  else if 0.6 < senti then 0.5
  else if senti < 0.3 then -1
  else if senti < 0.4 then -0.5
  else 0

/-- `total_score = technical_score + fundamental_score + sentiment_adjustment`
(line 197), as a function of the indicator values the function computed
just before. -/
def equityTotalScore (price sma20 sma50 rsi volTrend pe mcap senti : ℚ) : ℚ :=
  technicalScore price sma20 sma50 rsi volTrend
    + fundamentalScore pe mcap + sentimentAdjustment senti

/-- `pe_ratio = company_info.get('trailingPE', 20)` (line 145): an absent
`trailingPE` key defaults to 20. -/
def peOfInfo (trailingPE : Option ℚ) : ℚ := trailingPE.getD 20

/-- The `(recommendation, confidence, target_multiplier)` triple produced
by the recommendation mappers. -/
structure Advice where
  action : String
  confidence : ℚ
  targetMultiplier : ℚ
deriving DecidableEq, Repr

/-- Equity recommendation mapper (ai_predictor.py lines 200-211). -/
def equityAdvice (s : ℚ) : Advice :=
  if 3 ≤ s then
    { action := "BUY"
      confidence := min 0.85 (0.6 + (s - 3) * 0.05)
      targetMultiplier := 1.10 + (s - 3) * 0.02 }
  else if s ≤ -2 then
    { action := "SELL"
      confidence := min 0.80 (0.6 + |s + 2| * 0.05)
      targetMultiplier := 0.90 - |s + 2| * 0.02 }
  else
    { action := "HOLD"
      confidence := 0.60 + |s| * 0.05
      targetMultiplier := if 0 < s then 1.03 else 0.97 }

/-- `target_price = current_price * target_multiplier` (line 267). -/
def targetPrice (price mult : ℚ) : ℚ := price * mult

/-! ## RSI(14) (`_get_advanced_stock_analysis`, lines 128-133)

`delta = Close.diff()` is the series of consecutive close differences
with `NaN` at position 0; `gain`/`loss` are 14-bar rolling means of the
clamped deltas and the final RSI reads the last rolling position.
Pandas semantics embedded here: `delta.where(delta > 0, 0)` (and the
`< 0` twin) replaces every entry whose condition is False, and both
`NaN > 0` and `NaN < 0` are False, so the leading `NaN` becomes `0.0`
in the gain and loss series.  Those series therefore contain no `NaN`,
and the last `rolling(14).mean()` window is complete as soon as the
series has at least 14 bars; it covers the last 14 entries of the
zero-padded delta list.  When `loss = 0` and `gain > 0`, the float
quotient `rs = gain/loss` is `+inf` and `100 - 100/(1+rs)` saturates to
exactly 100; when `gain = loss = 0`, `rs` is `NaN`, modelled as
`none`. -/

/-- Consecutive differences of the closing prices (`Close.diff()`,
line 129, without the leading `NaN`). -/
def deltas : List ℚ → List ℚ
  | a :: b :: rest => (b - a) :: deltas (b :: rest)
  | _ => []

/-- Positive part of a delta (`delta.where(delta > 0, 0)`, line 130). -/
def gainPart (d : ℚ) : ℚ := if 0 < d then d else 0

/-- Negated negative part of a delta (`-delta.where(delta < 0, 0)`,
line 131). -/
def lossPart (d : ℚ) : ℚ := if d < 0 then -d else 0

/-- Last value of the RSI(14) computed at lines 128-133: the delta list
padded with the `0` that `.where` substitutes for `diff()`'s leading
`NaN`, the last 14-entry window of the clamped sums, and the line-133
fallback to 50 for fewer than 14 bars.  `none` models the `NaN` float
arising from `rs = 0/0` on a windful of zero deltas. -/
def rsiLast (closes : List ℚ) : Option ℚ :=
  if closes.length < 14 then some 50
  else
    let pd := 0 :: deltas closes
    let w := pd.drop (pd.length - 14)
    let gain := (w.map gainPart).sum / 14
    let loss := (w.map lossPart).sum / 14
    if loss = 0 then (if gain = 0 then none else some 100)
    else some (100 - 100 / (1 + gain / loss))

theorem deltas_length (l : List ℚ) : (deltas l).length = l.length - 1 := by
  induction l with
  | nil => rfl
  | cons a t ih =>
    cases t with
    | nil => rfl
    | cons b r => simpa [deltas] using ih

theorem deltas_pos {l : List ℚ} (h : l.Chain' (· < ·)) :
    ∀ d ∈ deltas l, 0 < d := by
  induction l with
  | nil => simp [deltas]
  | cons a t ih =>
    cases t with
    | nil => simp [deltas]
    | cons b r =>
      rw [List.chain'_cons] at h
      intro d hd
      rw [deltas, List.mem_cons] at hd
      rcases hd with hd | hd
      · rw [hd]; linarith [h.1]
      · exact ih h.2 d hd

/-! ## Sharpe ratio

Two places compute a Sharpe ratio from a price series.
`_get_advanced_fund_analysis` (ai_predictor.py lines 294-300) computes
`annual_return = mean * 252 * 100`, `volatility = std * sqrt 252 * 100`
and `sharpe = (annual_return - 2) / volatility if volatility > 0 else 0`,
where `mean`/`std` are the mean and standard deviation of the daily
returns.  `calculate_fund_performance` (data_fetcher.py lines 153-156)
computes `(mean(returns - 0.02/252) / std) * sqrt 252` with no zero-std
guard.  `sqrt 252` is irrational, so it is carried as a parameter
`s` with `s ^ 2 = 252`; the definitions are polymorphic over a linear
ordered field so that they stay executable on rational inputs while the
theorems instantiate them at `ℝ`. -/

/-- Sharpe ratio of the fund scoring engine (ai_predictor.py lines
294-300), as a function of the mean and standard deviation of the daily
returns; `s` stands for `sqrt 252`. -/
def fundEngineSharpe {K : Type} [LinearOrderedField K] (mean std s : K) : K :=
  let annual := mean * 252 * 100
  let vol := std * s * 100
  if 0 < vol then (annual - 2) / vol else 0

/-- Sharpe ratio of `calculate_fund_performance` (data_fetcher.py lines
153-156).  There is no zero-std guard in the source: dividing the
(negative) mean excess return by a zero std produces a non-finite IEEE
float (`-inf`), modelled as `none`. -/
def dataFetcherSharpe {K : Type} [LinearOrderedField K] (mean std s : K) : Option K :=
  if std = 0 then none else some ((mean - 0.02 / 252) / std * s)

/-- Modelled from the spec (§4.1): `(mean_daily_excess_return /
std_daily_return) × √252`, excess over a fixed 2% annual risk-free
assumption, and zero when the std is 0. -/
def specSharpe {K : Type} [LinearOrderedField K] (mean std s : K) : K :=
  if std = 0 then 0 else (mean - 0.02 / 252) / std * s

/-! ## Condition-to-text lists

The analyses build their explanatory lists by appending one fixed
sentence per matched rule, in rule declaration order, then (for the
stock lists) replacing an empty list with a 2-item default set, and
(for the fund lists) slicing to a fixed cap.  The inputs are the same
derived quantities as in the scoring rules. -/

/-- `risk_factors` of the stock analysis (ai_predictor.py lines
239-250). -/
def stockRiskFactors (vol pe senti mcap : ℚ) : List String :=
  let l :=
    (if 30 < vol then ["High volatility increases investment risk"] else [])
    ++ (if pe ≠ 0 ∧ 30 < pe then
          ["High valuation multiples vulnerable to market corrections"] else [])
    ++ (if senti < 0.4 then
          ["Negative sentiment could impact near-term performance"] else [])
    ++ (if mcap < 2e9 then
          ["Small-cap stock subject to higher volatility"] else [])
  if l = [] then ["Market volatility", "Economic conditions"] else l

/-- `key_factors` of the stock analysis (lines 252-263). -/
def stockKeyFactors (volTrend price sma20 senti pe : ℚ) : List String :=
  let l :=
    (if 1.2 < volTrend then ["Strong volume confirms price action"] else [])
    ++ (if sma20 < price then ["Positive momentum above 20-day average"] else [])
    ++ (if 0.6 < senti then ["Favorable news coverage"] else [])
    ++ (if pe ≠ 0 ∧ pe < 20 then ["Reasonable valuation metrics"] else [])
  if l = [] then ["Price momentum", "Market conditions"] else l

/-- `fund_strengths` (lines 413-426), capped with `strengths[:4]`
(line 460). -/
def fundStrengths (sharpe expense assets vol annual : ℚ) : List String :=
  let l :=
    (if 1 < sharpe then ["Strong risk-adjusted returns"] else [])
    ++ (if expense < 0.75 then ["Low cost structure"] else [])
    ++ (if 1e9 < assets then ["Large asset base provides stability"] else [])
    ++ (if vol < 15 then ["Low volatility provides stability"] else [])
    ++ (if 8 < annual then ["Consistent performance track record"] else [])
  (if l = [] then ["Professional management", "Diversification"] else l).take 4

/-- `fund_weaknesses` (lines 428-441), capped with `weaknesses[:3]`
(line 461). -/
def fundWeaknesses (expense vol annual sharpe assets : ℚ) : List String :=
  let l :=
    (if 1.5 < expense then ["High expense ratio reduces returns"] else [])
    ++ (if 20 < vol then ["High volatility increases risk"] else [])
    ++ (if annual < 5 then ["Below-average performance"] else [])
    ++ (if sharpe < 0.5 then ["Poor risk-adjusted returns"] else [])
    ++ (if assets < 100e6 then ["Small asset base may limit liquidity"] else [])
  (if l = [] then ["Market dependency", "Interest rate sensitivity"] else l).take 3

/-- `risk_factors` of the fund analysis (lines 443-451), capped with
`risk_factors[:4]` (line 458).  The three static entries are always
extended, so this list never falls back to a 2-item default. -/
def fundRiskFactors (vol expense : ℚ) (r21 : Option ℚ) : List String :=
  ((if 20 < vol then ["High volatility may result in significant losses"] else [])
   ++ (if 1.5 < expense then ["High fees erode long-term returns"] else [])
   ++ (match r21 with
       | some r => if r < -10 then
           ["Recent poor performance indicates potential issues"] else []
       | none => [])
   ++ ["Market risk", "Interest rate risk", "Manager risk"]).take 4

/-! ## Universe ranker (`_get_smart_stock_recommendations`,
`_get_smart_mf_recommendations`, `_get_fallback_*_recommendations`)

The rankers iterate over a fixed candidate universe; a candidate whose
fetch fails (returns `None` or raises — both modelled by the `fetch`
parameter returning `none`) or whose series is shorter than 30 bars
(stocks, line 550) / 50 bars (funds, line 675) is skipped.  The
surviving candidates are sorted by the `'score'` key, descending
(`recommendations.sort(key=lambda x: x['score'], reverse=True)`, a
stable sort, modelled by `List.mergeSort` with comparator
`b.score ≤ a.score`), the first 5 are returned, and if the list is
empty the static fallback list is returned instead (lines 644-646,
776-778).  The per-candidate evaluation body (lines 553-639 / 678-771:
float indicator arithmetic over the fetched frame) is passed as the
`eval` parameter, dependency-injection style; the claims below concern
only the skip/sort/cap/fallback plumbing that is embedded literally.
The smart-path entries carry a `'score'` key in addition to the eight
display fields while the fallback entries do not, so the result type is
a sum: `Sum.inl` is the scored smart list (each entry paired with its
score), `Sum.inr` the fallback list. -/

/-- One row of a fetched price frame; the ranker reads only `Close` and
`Volume`. -/
structure Quote where
  close : ℚ
  volume : ℚ
deriving DecidableEq, Repr

/-- The eight display fields every recommendation dict carries
(`symbol`, `name`, `current_price`, `target_price`, `confidence`,
`reasoning`, `price_change`, `sector`). -/
structure Recommendation where
  symbol : String
  name : String
  currentPrice : ℚ
  targetPrice : ℚ
  confidence : ℚ
  reasoning : String
  priceChange : ℚ
  sector : String
deriving DecidableEq, Repr

/-- `popular_stocks` (ai_predictor.py lines 520-541):
(symbol, display name, sector). -/
def popularStocks : List (String × String × String) :=
  [("RELIANCE.NS", "Reliance Industries Limited", "Energy"),
   ("TCS.NS", "Tata Consultancy Services Limited", "Technology"),
   ("INFY.NS", "Infosys Limited", "Technology"),
   ("HDFCBANK.NS", "HDFC Bank Limited", "Financial Services"),
   ("ICICIBANK.NS", "ICICI Bank Limited", "Financial Services"),
   ("HINDUNILVR.NS", "Hindustan Unilever Limited", "Consumer Goods"),
   ("ITC.NS", "ITC Limited", "Consumer Goods"),
   ("SBIN.NS", "State Bank of India", "Financial Services"),
   ("BHARTIARTL.NS", "Bharti Airtel Limited", "Telecommunications"),
   ("KOTAKBANK.NS", "Kotak Mahindra Bank Limited", "Financial Services"),
   ("LT.NS", "Larsen & Toubro Limited", "Engineering"),
   ("ASIANPAINT.NS", "Asian Paints Limited", "Chemicals"),
   ("MARUTI.NS", "Maruti Suzuki India Limited", "Automobile"),
   ("BAJFINANCE.NS", "Bajaj Finance Limited", "Financial Services"),
   ("WIPRO.NS", "Wipro Limited", "Technology"),
   ("HCLTECH.NS", "HCL Technologies Limited", "Technology"),
   ("SUNPHARMA.NS", "Sun Pharmaceutical Industries Limited", "Pharmaceuticals"),
   ("TITAN.NS", "Titan Company Limited", "Consumer Goods"),
   ("TECHM.NS", "Tech Mahindra Limited", "Technology"),
   ("ULTRACEMCO.NS", "UltraTech Cement Limited", "Cement")]

/-- `popular_funds` (lines 653-666): (symbol, display name, category). -/
def popularFunds : List (String × String × String) :=
  [("SBI-BLUECHIP", "SBI Bluechip Fund", "Large Cap"),
   ("HDFC-TOP100", "HDFC Top 100 Fund", "Large Cap"),
   ("ICICI-BLUECHIP", "ICICI Prudential Bluechip Fund", "Large Cap"),
   ("AXIS-BLUECHIP", "Axis Bluechip Fund", "Large Cap"),
   ("MIRAE-LARGECAP", "Mirae Asset Large Cap Fund", "Large Cap"),
   ("SBI-SMALLCAP", "SBI Small Cap Fund", "Small Cap"),
   ("HDFC-MIDCAP", "HDFC Mid-Cap Opportunities Fund", "Mid Cap"),
   ("ICICI-MIDCAP", "ICICI Prudential Mid Cap Fund", "Mid Cap"),
   ("KOTAK-MULTICAP", "Kotak Standard Multicap Fund", "Multi Cap"),
   ("FRANKLIN-FLEXICAP", "Franklin India Flexi Cap Fund", "Flexi Cap"),
   ("DSP-TAXSAVER", "DSP Tax Saver Fund", "ELSS"),
   ("AXIS-ELSS", "Axis Long Term Equity Fund", "ELSS")]

/-- `_get_fallback_stock_recommendations` (lines 479-495): the static
5-item list, with the SELL mutation of target price, price change and
reasoning applied to every entry when the requested direction is SELL. -/
def fallbackStockRecs (recType : String) : List Recommendation :=
  let stocks : List Recommendation :=
    [{ symbol := "RELIANCE.NS", name := "Reliance Industries Limited",
       currentPrice := 2850.00, targetPrice := 3000.00, confidence := 0.75,
       reasoning := "Strong refining and telecom business growth.",
       priceChange := 5.3, sector := "Energy" },
     { symbol := "TCS.NS", name := "Tata Consultancy Services Limited",
       currentPrice := 3650.00, targetPrice := 3850.00, confidence := 0.80,
       reasoning := "IT services leadership and digital transformation.",
       priceChange := 5.5, sector := "Technology" },
     { symbol := "HDFCBANK.NS", name := "HDFC Bank Limited",
       currentPrice := 1720.00, targetPrice := 1850.00, confidence := 0.70,
       reasoning := "Strong banking fundamentals and digital initiatives.",
       priceChange := 7.6, sector := "Financial Services" },
     { symbol := "INFY.NS", name := "Infosys Limited",
       currentPrice := 1890.00, targetPrice := 2000.00, confidence := 0.65,
       reasoning := "Strong IT consulting and automation services.",
       priceChange := 5.8, sector := "Technology" },
     { symbol := "ITC.NS", name := "ITC Limited",
       currentPrice := 465.00, targetPrice := 500.00, confidence := 0.72,
       reasoning := "Diversified FMCG portfolio and dividend yield.",
       priceChange := 7.5, sector := "Consumer Goods" }]
  if recType = "SELL" then
    stocks.map (fun r =>
      { r with targetPrice := r.currentPrice * 0.95, priceChange := -2.0,
               reasoning := "Technical indicators suggest potential downside." })
  else stocks

/-- `_get_fallback_mf_recommendations` (lines 497-513). -/
def fallbackFundRecs (recType : String) : List Recommendation :=
  let funds : List Recommendation :=
    [{ symbol := "SBI-BLUECHIP", name := "SBI Bluechip Fund",
       currentPrice := 85.50, targetPrice := 89.00, confidence := 0.75,
       reasoning := "Strong large-cap portfolio with consistent performance.",
       priceChange := 4.1, sector := "Large Cap" },
     { symbol := "HDFC-TOP100", name := "HDFC Top 100 Fund",
       currentPrice := 920.00, targetPrice := 950.00, confidence := 0.70,
       reasoning := "Diversified blue-chip equity exposure.",
       priceChange := 3.3, sector := "Large Cap" },
     { symbol := "ICICI-BLUECHIP", name := "ICICI Prudential Bluechip Fund",
       currentPrice := 65.40, targetPrice := 68.00, confidence := 0.65,
       reasoning := "Well-managed large-cap fund with stable returns.",
       priceChange := 4.0, sector := "Large Cap" },
     { symbol := "AXIS-BLUECHIP", name := "Axis Bluechip Fund",
       currentPrice := 52.80, targetPrice := 55.00, confidence := 0.68,
       reasoning := "Quality large-cap stocks with growth potential.",
       priceChange := 4.2, sector := "Large Cap" },
     { symbol := "MIRAE-LARGECAP", name := "Mirae Asset Large Cap Fund",
       currentPrice := 98.20, targetPrice := 102.00, confidence := 0.72,
       reasoning := "Systematic large-cap investment approach.",
       priceChange := 3.9, sector := "Large Cap" }]
  if recType = "SELL" then
    funds.map (fun r =>
      { r with targetPrice := r.currentPrice * 0.97, priceChange := -1.5,
               reasoning := "Consider rebalancing portfolio allocation." })
  else funds

/-- Per-candidate step of the ranker loop: skip when the fetch fails or
the series is shorter than `minLen` (lines 546-551 / 671-677), else
evaluate the candidate. -/
def rankCandidate (minLen : ℕ) (fetch : String → Option (List Quote))
    (eval : String × String × String → List Quote → Recommendation × ℚ)
    (c : String × String × String) : Option (Recommendation × ℚ) :=
  match fetch c.1 with
  | none => none
  | some data => if data.length < minLen then none else some (eval c data)

/-- Descending-by-score comparator of
`recommendations.sort(key=lambda x: x['score'], reverse=True)`. -/
def scoreDesc (a b : Recommendation × ℚ) : Bool := decide (b.2 ≤ a.2)

/-- Common shape of both rankers: filter the universe, sort by score
descending, return the first 5, or the fallback list when nothing
survived (lines 644-646 / 776-778). -/
def smartRecs (candidates : List (String × String × String)) (minLen : ℕ)
    (fetch : String → Option (List Quote))
    (eval : String × String × String → List Quote → Recommendation × ℚ)
    (fallback : List Recommendation) :
    List (Recommendation × ℚ) ⊕ List Recommendation :=
  let sorted := (candidates.filterMap (rankCandidate minLen fetch eval)).mergeSort
    scoreDesc
  if sorted.isEmpty then Sum.inr fallback else Sum.inl (sorted.take 5)

/-- `_get_smart_stock_recommendations` (lines 515-646). -/
def smartStockRecs (fetch : String → Option (List Quote))
    (eval : String × String × String → List Quote → Recommendation × ℚ)
    (recType : String) : List (Recommendation × ℚ) ⊕ List Recommendation :=
  smartRecs popularStocks 30 fetch eval (fallbackStockRecs recType)

/-- `_get_smart_mf_recommendations` (lines 648-778). -/
def smartFundRecs (fetch : String → Option (List Quote))
    (eval : String × String × String → List Quote → Recommendation × ℚ)
    (recType : String) : List (Recommendation × ℚ) ⊕ List Recommendation :=
  smartRecs popularFunds 50 fetch eval (fallbackFundRecs recType)

theorem smartRecs_all_skipped {candidates minLen fetch eval fallback}
    (h : ∀ c ∈ candidates, ∀ d, fetch c.1 = some d → d.length < minLen) :
    smartRecs candidates minLen fetch eval fallback = Sum.inr fallback := by
  have hnil : candidates.filterMap (rankCandidate minLen fetch eval) = [] := by
    rw [List.filterMap_eq_nil_iff]
    intro c hc
    unfold rankCandidate
    cases hfc : fetch c.1 with
    | none => rfl
    | some d => simp [h c hc d hfc]
  simp [smartRecs, hnil]

theorem smartRecs_inl {candidates minLen fetch eval fallback out}
    (h : smartRecs candidates minLen fetch eval fallback = Sum.inl out) :
    out.length ≤ 5
    ∧ out.Pairwise (fun a b : Recommendation × ℚ => b.2 ≤ a.2)
    ∧ ∀ e ∈ out, ∃ c ∈ candidates, ∃ d, fetch c.1 = some d
        ∧ minLen ≤ d.length ∧ e = eval c d := by
  unfold smartRecs at h
  set sorted := (candidates.filterMap (rankCandidate minLen fetch eval)).mergeSort
    scoreDesc with hsorted
  by_cases he : sorted.isEmpty
  · rw [if_pos he] at h
    exact absurd h (by simp)
  · rw [if_neg he] at h
    have hout : out = sorted.take 5 := (Sum.inl.injEq _ _).mp h.symm
    subst hout
    refine ⟨List.length_take_le _ _, ?_, ?_⟩
    · have htrans : ∀ a b c : Recommendation × ℚ, scoreDesc a b = true →
          scoreDesc b c = true → scoreDesc a c = true := by
        intro a b c hab hbc
        simp only [scoreDesc, decide_eq_true_eq] at *
        exact le_trans hbc hab
      have htotal : ∀ a b : Recommendation × ℚ,
          (scoreDesc a b || scoreDesc b a) = true := by
        intro a b
        simp only [scoreDesc, Bool.or_eq_true, decide_eq_true_eq]
        exact le_total b.2 a.2
      have hpw := List.sorted_mergeSort htrans htotal
        (candidates.filterMap (rankCandidate minLen fetch eval))
      rw [← hsorted] at hpw
      have hpw2 : sorted.Pairwise (fun a b : Recommendation × ℚ => b.2 ≤ a.2) :=
        hpw.imp (fun hab => by simpa [scoreDesc] using hab)
      exact hpw2.sublist (List.take_sublist _ _)
    · intro e he'
      have hmem : e ∈ sorted := List.mem_of_mem_take he'
      rw [hsorted, List.mem_mergeSort, List.mem_filterMap] at hmem
      obtain ⟨c, hc, hcand⟩ := hmem
      unfold rankCandidate at hcand
      cases hfc : fetch c.1 with
      | none => rw [hfc] at hcand; exact absurd hcand (by simp)
      | some d =>
        rw [hfc] at hcand
        by_cases hlen : d.length < minLen
        · simp [hlen] at hcand
        · simp [hlen] at hcand
          exact ⟨c, hc, d, hfc, by omega, hcand.symm⟩

end InvestAnalyze

namespace InvestAnalyze

/-- **C1.** With price 110, SMA20 = 100, SMA50 = 95, RSI = 25, volume
ratio 1.3, P/E = 8, market cap 1e9 and sentiment 0.75 the equity
composite score is 8 (trend +2, RSI +1, volume +1, low P/E +2, small cap
+1, sentiment +1), and the mapper yields BUY with confidence 0.85,
target multiplier 1.20 and target price 110 × 1.20 = 132. -/
theorem c1_equity_example :
    equityTotalScore 110 100 95 25 1.3 8 1e9 0.75 = 8
    ∧ trendScore 110 100 95 = 2 ∧ rsiScore 25 = 1 ∧ volumeScore 1.3 = 1
    ∧ peScore 8 = 2 ∧ mcapScore 1e9 = 1 ∧ sentimentAdjustment 0.75 = 1
    ∧ equityAdvice 8 =
        { action := "BUY", confidence := 0.85, targetMultiplier := 1.20 }
    ∧ targetPrice 110 (equityAdvice 8).targetMultiplier = 110 * 1.20 := by
  refine ⟨?_, ?_, ?_, ?_, ?_, ?_, ?_, ?_, ?_⟩ <;>
    simp [equityTotalScore, technicalScore, fundamentalScore, trendScore,
      rsiScore, volumeScore, peScore, mcapScore, sentimentAdjustment,
      equityAdvice, targetPrice] <;> norm_num

/-- **C2.** For every equity composite score `s` the mapper returns:
BUY with confidence `min 0.85 (0.6 + (s-3)*0.05)` and multiplier
`1.10 + (s-3)*0.02` when `s ≥ 3`; SELL with confidence
`min 0.80 (0.6 + |s+2|*0.05)` and multiplier `0.90 - |s+2|*0.02` when
`s ≤ -2`; otherwise HOLD with confidence `0.60 + |s|*0.05` and
multiplier 1.03 if `s > 0` else 0.97. -/
theorem c2_equity_mapper (s : ℚ) :
    (3 ≤ s → equityAdvice s =
      { action := "BUY", confidence := min 0.85 (0.6 + (s - 3) * 0.05),
        targetMultiplier := 1.10 + (s - 3) * 0.02 })
    ∧ (s ≤ -2 → equityAdvice s =
      { action := "SELL", confidence := min 0.80 (0.6 + |s + 2| * 0.05),
        targetMultiplier := 0.90 - |s + 2| * 0.02 })
    ∧ (-2 < s → s < 3 → equityAdvice s =
      { action := "HOLD", confidence := 0.60 + |s| * 0.05,
        targetMultiplier := if 0 < s then 1.03 else 0.97 }) := by
  refine ⟨fun h => ?_, fun h => ?_, fun h1 h2 => ?_⟩ <;>
    unfold equityAdvice <;> split_ifs <;> first | rfl | linarith

/-- Witness for `c2_equity_mapper`: each of the three branches applied at
a concrete score (8, -4, 1), with its hypotheses discharged there. -/
theorem c2_equity_mapper_witness :
    ((3:ℚ) ≤ 8 ∧ equityAdvice 8 =
      { action := "BUY", confidence := min 0.85 (0.6 + ((8:ℚ) - 3) * 0.05),
        targetMultiplier := 1.10 + ((8:ℚ) - 3) * 0.02 })
    ∧ ((-4:ℚ) ≤ -2 ∧ equityAdvice (-4) =
      { action := "SELL", confidence := min 0.80 (0.6 + |(-4:ℚ) + 2| * 0.05),
        targetMultiplier := 0.90 - |(-4:ℚ) + 2| * 0.02 })
    ∧ ((-2:ℚ) < 1 ∧ (1:ℚ) < 3 ∧ equityAdvice 1 =
      { action := "HOLD", confidence := 0.60 + |(1:ℚ)| * 0.05,
        targetMultiplier := if (0:ℚ) < 1 then 1.03 else 0.97 }) :=
  ⟨⟨by norm_num, (c2_equity_mapper 8).1 (by norm_num)⟩,
   ⟨by norm_num, (c2_equity_mapper (-4)).2.1 (by norm_num)⟩,
   ⟨by norm_num, by norm_num,
     (c2_equity_mapper 1).2.2 (by norm_num) (by norm_num)⟩⟩

/-! ## Fund scoring engine (`_get_advanced_fund_analysis`, lines 289-385)

Inputs are the quantities the function derives first: `annual_return`
(annualised mean daily return, in percent), `sharpe` (the ratio computed
at line 300), `vol` (annualised volatility, percent), `expense`
(`annualReportExpenseRatio * 100`), `assets` (`totalAssets`), and the
optional 21-day period return `r21` (absent when the series is shorter
than 21 bars).  The dead `elif` branches of the source (`annual < 0`
after `annual < 2`, `sharpe < 0` after `sharpe < 0.5`) are kept as
written. -/

/-- `performance_score` (lines 321-343). -/
def performanceScore (annual sharpe vol : ℚ) : ℚ :=
  (if 12 < annual then 2
   else if 8 < annual then 1
   else if annual < 2 then -1
   else if annual < 0 then -2
   else 0)
  + (if 1.5 < sharpe then 2
     else if 1 < sharpe then 1
     else if sharpe < 0.5 then -1
     else if sharpe < 0 then -2
     else 0)
  + (if vol < 10 then 1 else if 25 < vol then -1 else 0)

/-- `cost_score` (lines 345-353). -/
def costScore (expense : ℚ) : ℚ :=
  if expense < 0.5 then 2
  else if expense < 1.0 then 1
  else if 2.0 < expense then -2
  else if 1.5 < expense then -1
  else 0

/-- `size_score` (lines 355-361). -/
def sizeScore (assets : ℚ) : ℚ :=
  if 10e9 < assets then 1
  else if 1e9 < assets then 0.5
  else if assets < 100e6 then -1
  else 0

/-- `momentum_score` (lines 363-368); `none` models a series shorter than
21 bars, where `'21d'` is absent from `period_returns`. -/
def momentumScore (r21 : Option ℚ) : ℚ :=
  match r21 with
  | none => 0
  | some r => if 2 < r then 1 else if r < -5 then -1 else 0

/-- `total_score` of the fund analysis (line 371). -/
def fundTotalScore (annual sharpe vol expense assets : ℚ) (r21 : Option ℚ) : ℚ :=
  performanceScore annual sharpe vol + costScore expense + sizeScore assets
    + momentumScore r21

/-- Fund recommendation mapper (ai_predictor.py lines 374-385). -/
def fundAdvice (s : ℚ) : Advice :=
  if 4 ≤ s then
    { action := "BUY"
      confidence := min 0.85 (0.65 + (s - 4) * 0.03)
      targetMultiplier := 1.08 + (s - 4) * 0.01 }
  else if s ≤ -2 then
    { action := "SELL"
      confidence := min 0.80 (0.60 + |s + 2| * 0.03)
      targetMultiplier := 0.92 - |s + 2| * 0.01 }
  else
    { action := "HOLD"
      confidence := 0.65 + |s| * 0.02
      targetMultiplier := if 0 < s then 1.04 else 0.98 }

/-- **C3 counterexample.** With annual return 15, Sharpe 1.8, expense
0.3, assets 15e9 and a *neutral* volatility term (volatility 15, inside
the no-contribution band 10 ≤ vol ≤ 25), the performance sub-score is 4,
not 5; the total (momentum absent) is 7, not 8; and the BUY confidence
is `min 0.85 (0.65 + 3*0.03) = 0.74`, not 0.77. -/
theorem c3_fund_example_neutral_vol_refuted :
    performanceScore 15 1.8 15 = 4
    ∧ performanceScore 15 1.8 15 ≠ 5
    ∧ fundTotalScore 15 1.8 15 0.3 15e9 none = 7
    ∧ fundTotalScore 15 1.8 15 0.3 15e9 none ≠ 8
    ∧ (fundAdvice (fundTotalScore 15 1.8 15 0.3 15e9 none)).confidence = 0.74
    ∧ (fundAdvice (fundTotalScore 15 1.8 15 0.3 15e9 none)).confidence ≠ 0.77 := by
  refine ⟨?_, ?_, ?_, ?_, ?_, ?_⟩ <;>
    norm_num [performanceScore, fundTotalScore, costScore, sizeScore,
      momentumScore, fundAdvice]

/-- **C3 (amended).** With annual return 15 and Sharpe 1.8 the code's own
volatility is `(15 - 2) / 1.8 = 65/9 ≈ 7.2 < 10` (line 300 solved for
`volatility`), so the volatility rule contributes +1: the performance
sub-score is 5, cost 2, size 1, momentum 0, total 8, and the result is
BUY with confidence `min 0.85 (0.65 + 4*0.03) = 0.77`. -/
theorem c3_fund_example :
    (15 - 2) / (65/9 : ℚ) = 1.8
    ∧ performanceScore 15 1.8 (65/9) = 5
    ∧ costScore 0.3 = 2
    ∧ sizeScore 15e9 = 1
    ∧ fundTotalScore 15 1.8 (65/9) 0.3 15e9 none = 8
    ∧ fundAdvice 8 =
        { action := "BUY", confidence := 0.77, targetMultiplier := 1.12 } := by
  refine ⟨?_, ?_, ?_, ?_, ?_, ?_⟩ <;>
    norm_num [performanceScore, fundTotalScore, costScore, sizeScore,
      momentumScore, fundAdvice]

/-- **C8.** For every composite score, the confidence produced by the
equity mapper and by the fund mapper lies in [0, 1] (each of the BUY,
SELL and HOLD branches stays inside the bounds). -/
theorem c8_confidence_bounds (s : ℚ) :
    0 ≤ (equityAdvice s).confidence ∧ (equityAdvice s).confidence ≤ 1
    ∧ 0 ≤ (fundAdvice s).confidence ∧ (fundAdvice s).confidence ≤ 1 := by
  refine ⟨?_, ?_, ?_, ?_⟩
  · unfold equityAdvice
    split_ifs with h1 h2 <;> simp only [Advice.confidence]
    · exact le_min (by norm_num) (by nlinarith)
    · exact le_min (by norm_num) (by positivity)
    all_goals positivity
  · unfold equityAdvice
    split_ifs with h1 h2 <;> simp only [Advice.confidence]
    · exact le_trans (min_le_left _ _) (by norm_num)
    · exact le_trans (min_le_left _ _) (by norm_num)
    all_goals
      have h3 : |s| < 3 := abs_lt.mpr ⟨by linarith, by linarith⟩
      linarith
  · unfold fundAdvice
    split_ifs with h1 h2 <;> simp only [Advice.confidence]
    · exact le_min (by norm_num) (by nlinarith)
    · exact le_min (by norm_num) (by positivity)
    all_goals positivity
  · unfold fundAdvice
    split_ifs with h1 h2 <;> simp only [Advice.confidence]
    · exact le_trans (min_le_left _ _) (by norm_num)
    · exact le_trans (min_le_left _ _) (by norm_num)
    all_goals
      have h4 : |s| < 4 := abs_lt.mpr ⟨by linarith, by linarith⟩
      linarith

/-- **C10.** When the fundamentals mapping has no `trailingPE` key the
P/E defaults to 20, which lies in the 10-25 band and contributes +1 to
the fundamental score; when `trailingPE` is present with value 0 no P/E
rule fires and the P/E contribution is 0. -/
theorem c10_pe_default_and_zero :
    peOfInfo none = 20
    ∧ 10 ≤ peOfInfo none ∧ peOfInfo none ≤ 25
    ∧ peScore (peOfInfo none) = 1
    ∧ (∀ mcap : ℚ, fundamentalScore (peOfInfo none) mcap = 1 + mcapScore mcap)
    ∧ peOfInfo (some 0) = 0
    ∧ peScore (peOfInfo (some 0)) = 0
    ∧ (∀ mcap : ℚ, fundamentalScore (peOfInfo (some 0)) mcap = mcapScore mcap) := by
  refine ⟨rfl, by norm_num [peOfInfo], by norm_num [peOfInfo], ?_, ?_, rfl, ?_, ?_⟩ <;>
    simp [peOfInfo, peScore, fundamentalScore] <;> norm_num

/-- **C5.** For every price series of at least 14 bars whose closes are
strictly monotonically increasing (every delta positive), the computed
RSI(14) equals 100: `.where` fills `diff()`'s leading `NaN` with 0, so
the last rolling window is complete from 14 bars on, its average loss
is 0 and its average gain is positive, and the zero-loss case saturates
to exactly 100 instead of raising an error. -/
theorem c5_rsi_saturates_at_100 (closes : List ℚ)
    (hlen : 14 ≤ closes.length) (hmono : closes.Chain' (· < ·)) :
    rsiLast closes = some 100 := by
  have hnotlt : ¬ closes.length < 14 := by omega
  rw [rsiLast, if_neg hnotlt]
  set ds := deltas closes with hds
  set pd : List ℚ := 0 :: ds with hpd
  set w := pd.drop (pd.length - 14) with hw
  have hdlen : ds.length = closes.length - 1 := deltas_length closes
  have hpdlen : pd.length = closes.length := by
    rw [hpd, List.length_cons]; omega
  have hwnonneg : ∀ d ∈ w, 0 ≤ d := by
    intro d hd
    have hmem : d ∈ pd := List.mem_of_mem_drop hd
    rw [hpd, List.mem_cons] at hmem
    rcases hmem with rfl | hmem
    · exact le_refl 0
    · exact le_of_lt (deltas_pos hmono d hmem)
  have hloss : (w.map lossPart).sum = 0 := by
    apply List.sum_eq_zero
    intro x hx
    rw [List.mem_map] at hx
    obtain ⟨d, hd, hxd⟩ := hx
    have := hwnonneg d hd
    rw [← hxd, lossPart, if_neg (by linarith)]
  have hdsnil : ds ≠ [] := by
    intro hnil
    rw [hnil] at hdlen
    simp at hdlen
    omega
  have hgain : 0 < (w.map gainPart).sum := by
    rcases Nat.lt_or_ge closes.length 15 with hc | hc
    · -- exactly 14 bars: the window is the whole padded list; the
      -- padded zero contributes 0 and the 13 positive deltas the rest
      have hdrop : pd.length - 14 = 0 := by omega
      rw [hw, hdrop, List.drop_zero, hpd, List.map_cons, List.sum_cons]
      have h0 : gainPart 0 = 0 := by norm_num [gainPart]
      rw [h0, zero_add]
      apply List.sum_pos
      · intro x hx
        rw [List.mem_map] at hx
        obtain ⟨d, hd, hxd⟩ := hx
        have hdpos := deltas_pos hmono d hd
        rw [← hxd, gainPart, if_pos hdpos]
        exact hdpos
      · intro hnil
        rw [List.map_eq_nil_iff] at hnil
        exact hdsnil hnil
    · -- at least 15 bars: the window drops the padded zero entirely
      have hwds : w = ds.drop (pd.length - 15) := by
        rw [hw, hpd, show (0 :: ds).length - 14 = ((0 :: ds).length - 15) + 1
          from by rw [List.length_cons]; omega, List.drop_succ_cons]
      have hwlen : w.length = 14 := by
        rw [hwds, List.length_drop]; omega
      apply List.sum_pos
      · intro x hx
        rw [List.mem_map] at hx
        obtain ⟨d, hd, hxd⟩ := hx
        have hdpos : 0 < d := by
          rw [hwds] at hd
          exact deltas_pos hmono d (List.mem_of_mem_drop hd)
        rw [← hxd, gainPart, if_pos hdpos]
        exact hdpos
      · intro hnil
        rw [List.map_eq_nil_iff] at hnil
        rw [hnil] at hwlen
        simp at hwlen
  simp only [hloss, zero_div, if_pos rfl]
  rw [if_neg (ne_of_gt (div_pos hgain (by norm_num)))]
  simp

/-- Witness for `c5_rsi_saturates_at_100`: both the 20-bar and the
boundary 14-bar strictly increasing series 1, 2, ... have RSI(14)
exactly 100. -/
theorem c5_rsi_saturates_at_100_witness :
    (14 ≤ ([1, 2, 3, 4, 5, 6, 7, 8, 9, 10, 11, 12, 13, 14, 15, 16, 17, 18,
        19, 20] : List ℚ).length
     ∧ List.Chain' (· < ·)
         ([1, 2, 3, 4, 5, 6, 7, 8, 9, 10, 11, 12, 13, 14, 15, 16, 17, 18,
           19, 20] : List ℚ)
     ∧ rsiLast [1, 2, 3, 4, 5, 6, 7, 8, 9, 10, 11, 12, 13, 14, 15, 16, 17,
         18, 19, 20] = some 100)
    ∧ (14 ≤ ([1, 2, 3, 4, 5, 6, 7, 8, 9, 10, 11, 12, 13, 14] : List ℚ).length
     ∧ List.Chain' (· < ·)
         ([1, 2, 3, 4, 5, 6, 7, 8, 9, 10, 11, 12, 13, 14] : List ℚ)
     ∧ rsiLast [1, 2, 3, 4, 5, 6, 7, 8, 9, 10, 11, 12, 13, 14] = some 100) :=
  ⟨⟨by decide, by norm_num [List.chain'_cons],
     c5_rsi_saturates_at_100 _ (by decide) (by norm_num [List.chain'_cons])⟩,
   ⟨by decide, by norm_num [List.chain'_cons],
     c5_rsi_saturates_at_100 _ (by decide) (by norm_num [List.chain'_cons])⟩⟩

/-- **C4 counterexample.** Not every Sharpe ratio the system computes is
0 at zero std: `calculate_fund_performance` has no zero-std guard, so
for a constant price series (all daily returns 0, hence mean 0 and std
0) it divides by zero and produces a non-finite float (`none`) rather
than 0. -/
theorem c4_data_fetcher_zero_std_refuted :
    dataFetcherSharpe 0 0 (Real.sqrt 252) = none
    ∧ dataFetcherSharpe 0 0 (Real.sqrt 252) ≠ some 0
    ∧ dataFetcherSharpe 0 0 (Real.sqrt 252) ≠ some (specSharpe 0 0 (Real.sqrt 252)) := by
  refine ⟨?_, ?_, ?_⟩ <;> simp [dataFetcherSharpe]

/-- **C4 (amended).** For every daily-return mean and std (std ≥ 0) and
`s = √252`: the Sharpe ratio the fund scoring engine derives equals the
spec formula `(mean daily excess return / std) × √252` with a 2% annual
risk-free rate, including 0 when std = 0; `calculate_fund_performance`
agrees with the formula whenever std > 0, but at std = 0 it divides by
zero instead of returning 0. -/
theorem c4_sharpe_formula (mean std s : ℝ) (hstd : 0 ≤ std) (hs : 0 < s)
    (hsq : s ^ 2 = 252) :
    fundEngineSharpe mean std s = specSharpe mean std s
    ∧ (std ≠ 0 → dataFetcherSharpe mean std s = some (specSharpe mean std s))
    ∧ (std = 0 → fundEngineSharpe mean std s = 0) := by
  by_cases hz : std = 0
  · subst hz
    refine ⟨?_, fun h => absurd rfl h, fun _ => ?_⟩ <;>
      simp [fundEngineSharpe, specSharpe]
  · have hstdpos : 0 < std := lt_of_le_of_ne hstd (Ne.symm hz)
    have hvol : 0 < std * s * 100 := by positivity
    have hsne : s ≠ 0 := ne_of_gt hs
    refine ⟨?_, fun _ => ?_, fun h => absurd h hz⟩
    · rw [fundEngineSharpe, specSharpe, if_pos hvol, if_neg hz]
      rw [show (252:ℝ) = s ^ 2 from hsq.symm]
      field_simp
      ring
    · rw [dataFetcherSharpe, specSharpe, if_neg hz, if_neg hz]

/-- Witness for `c4_sharpe_formula` at mean 1, std 1, `s = √252`. -/
theorem c4_sharpe_formula_witness :
    (0:ℝ) ≤ 1 ∧ 0 < Real.sqrt 252 ∧ Real.sqrt 252 ^ 2 = 252
    ∧ (fundEngineSharpe 1 1 (Real.sqrt 252) = specSharpe 1 1 (Real.sqrt 252)
       ∧ ((1:ℝ) ≠ 0 → dataFetcherSharpe 1 1 (Real.sqrt 252) =
            some (specSharpe 1 1 (Real.sqrt 252)))
       ∧ ((1:ℝ) = 0 → fundEngineSharpe 1 1 (Real.sqrt 252) = 0)) := by
  have hs : 0 < Real.sqrt 252 := Real.sqrt_pos.mpr (by norm_num)
  have hsq : Real.sqrt 252 ^ 2 = 252 := Real.sq_sqrt (by norm_num)
  exact ⟨by norm_num, hs, hsq, c4_sharpe_formula 1 1 _ (by norm_num) hs hsq⟩

/-- **C9 counterexample.** The fund `risk_factors` list does not fall
back to a 2-item default when no condition-to-text rule matched: the
three static entries are always appended, so with volatility 10,
expense 1 and no 21-day return (no rule fires) the list is exactly the
3 static sentences and has length 3, not 2. -/
theorem c9_fund_risk_fallback_refuted :
    fundRiskFactors 10 1 none =
      ["Market risk", "Interest rate risk", "Manager risk"]
    ∧ (fundRiskFactors 10 1 none).length = 3
    ∧ (fundRiskFactors 10 1 none).length ≠ 2 := by
  refine ⟨?_, ?_, ?_⟩ <;> norm_num [fundRiskFactors]

/-- **C9 (amended).** The generated text lists respect the fixed caps
(risk factors ≤ 4, key factors ≤ 4, fund strengths ≤ 4, fund
weaknesses ≤ 3, fund risk factors ≤ 4); the stock risk/key lists and
the fund strength/weakness lists fall back to a 2-item default sentence
set when no condition-to-text rule matched, while the fund risk-factor
list — whose three static entries are always appended — is exactly
those 3 static sentences in that case. -/
theorem c9_text_lists (vol pe senti mcap volTrend price sma20 sharpe
    expense assets annual : ℚ) (r21 : Option ℚ) :
    (stockRiskFactors vol pe senti mcap).length ≤ 4
    ∧ (stockKeyFactors volTrend price sma20 senti pe).length ≤ 4
    ∧ (fundStrengths sharpe expense assets vol annual).length ≤ 4
    ∧ (fundWeaknesses expense vol annual sharpe assets).length ≤ 3
    ∧ (fundRiskFactors vol expense r21).length ≤ 4
    ∧ (¬30 < vol → ¬(pe ≠ 0 ∧ 30 < pe) → ¬senti < 0.4 → ¬mcap < 2e9 →
        stockRiskFactors vol pe senti mcap =
          ["Market volatility", "Economic conditions"])
    ∧ (¬1.2 < volTrend → ¬sma20 < price → ¬0.6 < senti →
        ¬(pe ≠ 0 ∧ pe < 20) →
        stockKeyFactors volTrend price sma20 senti pe =
          ["Price momentum", "Market conditions"])
    ∧ (¬1 < sharpe → ¬expense < 0.75 → ¬1e9 < assets → ¬vol < 15 →
        ¬8 < annual →
        fundStrengths sharpe expense assets vol annual =
          ["Professional management", "Diversification"])
    ∧ (¬1.5 < expense → ¬20 < vol → ¬annual < 5 → ¬sharpe < 0.5 →
        ¬assets < 100e6 →
        fundWeaknesses expense vol annual sharpe assets =
          ["Market dependency", "Interest rate sensitivity"])
    ∧ (¬20 < vol → ¬1.5 < expense → (∀ r, r21 = some r → ¬r < -10) →
        fundRiskFactors vol expense r21 =
          ["Market risk", "Interest rate risk", "Manager risk"]) := by
  refine ⟨?_, ?_, ?_, ?_, ?_, ?_, ?_, ?_, ?_, ?_⟩
  · unfold stockRiskFactors
    split_ifs <;> simp_all
  · unfold stockKeyFactors
    split_ifs <;> simp_all
  · exact List.length_take_le _ _
  · exact List.length_take_le _ _
  · exact List.length_take_le _ _
  · intro h1 h2 h3 h4
    simp [stockRiskFactors, h1, h2, h3, h4]
  · intro h1 h2 h3 h4
    simp [stockKeyFactors, h1, h2, h3, h4]
  · intro h1 h2 h3 h4 h5
    simp [fundStrengths, h1, h2, h3, h4, h5]
  · intro h1 h2 h3 h4 h5
    simp [fundWeaknesses, h1, h2, h3, h4, h5]
  · intro h1 h2 h3
    cases hr : r21 with
    | none => simp [fundRiskFactors, h1, h2, hr]
    | some r =>
      have := h3 r hr
      simp [fundRiskFactors, h1, h2, hr, this]

/-- **C6.** When every candidate of the universe is skipped (the fetch
returns no data or raises — `none` — or returns a too-short series, for
every symbol), the top-recommendation functions return exactly the
static hardcoded 5-item fallback list for the requested asset class and
direction; that list has exactly 5 entries (hence is never empty), and
each entry is a `Recommendation` record, so it carries the symbol,
name, current_price, target_price, confidence, reasoning, price_change
and sector fields by construction. -/
theorem c6_total_failure_fallback
    (fetchS fetchF : String → Option (List Quote))
    (evalS evalF : String × String × String → List Quote → Recommendation × ℚ)
    (recType : String)
    (hS : ∀ c ∈ popularStocks, ∀ d, fetchS c.1 = some d → d.length < 30)
    (hF : ∀ c ∈ popularFunds, ∀ d, fetchF c.1 = some d → d.length < 50) :
    smartStockRecs fetchS evalS recType = Sum.inr (fallbackStockRecs recType)
    ∧ smartFundRecs fetchF evalF recType = Sum.inr (fallbackFundRecs recType)
    ∧ (fallbackStockRecs recType).length = 5
    ∧ (fallbackFundRecs recType).length = 5 := by
  refine ⟨smartRecs_all_skipped hS, smartRecs_all_skipped hF, ?_, ?_⟩
  · unfold fallbackStockRecs
    split_ifs <;> simp
  · unfold fallbackFundRecs
    split_ifs <;> simp

/-- A fetch collaborator for which every symbol fails. -/
def noQuotes : String → Option (List Quote) := fun _ => none

/-- A fixed recommendation record, used as a dummy per-candidate
evaluation result. -/
def zeroRec : Recommendation :=
  { symbol := "X", name := "X", currentPrice := 0, targetPrice := 0,
    confidence := 0, reasoning := "X", priceChange := 0, sector := "X" }

/-- A dummy per-candidate evaluation. -/
def zeroEval : String × String × String → List Quote → Recommendation × ℚ :=
  fun _ _ => (zeroRec, 0)

/-- Witness for `c6_total_failure_fallback`: with a fetch that fails on
every symbol, both rankers return the static fallback lists of length
5. -/
theorem c6_total_failure_fallback_witness :
    (∀ c ∈ popularStocks, ∀ d, noQuotes c.1 = some d → d.length < 30)
    ∧ (∀ c ∈ popularFunds, ∀ d, noQuotes c.1 = some d → d.length < 50)
    ∧ (smartStockRecs noQuotes zeroEval "BUY" =
        Sum.inr (fallbackStockRecs "BUY")
       ∧ smartFundRecs noQuotes zeroEval "BUY" =
          Sum.inr (fallbackFundRecs "BUY")
       ∧ (fallbackStockRecs "BUY").length = 5
       ∧ (fallbackFundRecs "BUY").length = 5) := by
  have h1 : ∀ c ∈ popularStocks, ∀ d, noQuotes c.1 = some d → d.length < 30 := by
    simp [noQuotes]
  have h2 : ∀ c ∈ popularFunds, ∀ d, noQuotes c.1 = some d → d.length < 50 := by
    simp [noQuotes]
  exact ⟨h1, h2,
    c6_total_failure_fallback noQuotes noQuotes zeroEval zeroEval "BUY" h1 h2⟩

/-- **C7.** Every candidate whose fetch fails or whose series has fewer
than 30 bars (stocks) / 50 bars (funds) is skipped — each entry of the
smart output comes from a candidate whose single fetch succeeded with a
long-enough series; the output is sorted in descending order of the
composite score (the second component, not the confidence field), and
at most the first 5 entries are returned. -/
theorem c7_ranker_skips_sorts_caps
    (fetchS fetchF : String → Option (List Quote))
    (evalS evalF : String × String × String → List Quote → Recommendation × ℚ)
    (recType : String)
    (outS outF : List (Recommendation × ℚ)) :
    (smartStockRecs fetchS evalS recType = Sum.inl outS →
      outS.length ≤ 5
      ∧ outS.Pairwise (fun a b : Recommendation × ℚ => b.2 ≤ a.2)
      ∧ ∀ e ∈ outS, ∃ c ∈ popularStocks, ∃ d, fetchS c.1 = some d
          ∧ 30 ≤ d.length ∧ e = evalS c d)
    ∧ (smartFundRecs fetchF evalF recType = Sum.inl outF →
      outF.length ≤ 5
      ∧ outF.Pairwise (fun a b : Recommendation × ℚ => b.2 ≤ a.2)
      ∧ ∀ e ∈ outF, ∃ c ∈ popularFunds, ∃ d, fetchF c.1 = some d
          ∧ 50 ≤ d.length ∧ e = evalF c d) :=
  ⟨fun h => smartRecs_inl h, fun h => smartRecs_inl h⟩

/-- A fetch collaborator that succeeds for exactly one stock symbol with
a 30-bar series. -/
def oneStockFetch : String → Option (List Quote) := fun sym =>
  if sym = "RELIANCE.NS" then some (List.replicate 30 ⟨100, 1000⟩) else none

/-- A fetch collaborator that succeeds for exactly one fund symbol with
a 50-bar series. -/
def oneFundFetch : String → Option (List Quote) := fun sym =>
  if sym = "SBI-BLUECHIP" then some (List.replicate 50 ⟨100, 1000⟩) else none

/-- Witness for `c7_ranker_skips_sorts_caps`: with exactly one
successful candidate per universe, both rankers return the singleton
smart list and it satisfies the three conclusions. -/
theorem c7_ranker_skips_sorts_caps_witness :
    (smartStockRecs oneStockFetch zeroEval "BUY" = Sum.inl [(zeroRec, 0)]
     ∧ ([(zeroRec, (0:ℚ))]).length ≤ 5
     ∧ List.Pairwise (fun a b : Recommendation × ℚ => b.2 ≤ a.2)
         [(zeroRec, (0:ℚ))]
     ∧ ∀ e ∈ [(zeroRec, (0:ℚ))], ∃ c ∈ popularStocks, ∃ d,
         oneStockFetch c.1 = some d ∧ 30 ≤ d.length ∧ e = zeroEval c d)
    ∧ (smartFundRecs oneFundFetch zeroEval "BUY" = Sum.inl [(zeroRec, 0)]
     ∧ ([(zeroRec, (0:ℚ))]).length ≤ 5
     ∧ List.Pairwise (fun a b : Recommendation × ℚ => b.2 ≤ a.2)
         [(zeroRec, (0:ℚ))]
     ∧ ∀ e ∈ [(zeroRec, (0:ℚ))], ∃ c ∈ popularFunds, ∃ d,
         oneFundFetch c.1 = some d ∧ 50 ≤ d.length ∧ e = zeroEval c d) := by
  have hS : smartStockRecs oneStockFetch zeroEval "BUY" =
      Sum.inl [(zeroRec, 0)] := by
    simp +decide [smartStockRecs, smartRecs, popularStocks, rankCandidate,
      oneStockFetch, zeroEval]
  have hF : smartFundRecs oneFundFetch zeroEval "BUY" =
      Sum.inl [(zeroRec, 0)] := by
    simp +decide [smartFundRecs, smartRecs, popularFunds, rankCandidate,
      oneFundFetch, zeroEval]
  have h := c7_ranker_skips_sorts_caps oneStockFetch oneFundFetch zeroEval
    zeroEval "BUY" [(zeroRec, 0)] [(zeroRec, 0)]
  exact ⟨⟨hS, h.1 hS⟩, ⟨hF, h.2 hF⟩⟩

/-- Witness for `c9_text_lists` at neutral inputs where no
condition-to-text rule fires (vol 18, pe 0, sentiment 0.5, market cap
3e9, volume trend 1, price = SMA20 = 100, Sharpe 0.8, expense 1, assets
5e8, annual return 6, no 21-day return). -/
theorem c9_text_lists_witness :
    stockRiskFactors 18 0 0.5 3e9 = ["Market volatility", "Economic conditions"]
    ∧ stockKeyFactors 1 100 100 0.5 0 = ["Price momentum", "Market conditions"]
    ∧ fundStrengths 0.8 1 5e8 18 6 = ["Professional management", "Diversification"]
    ∧ fundWeaknesses 1 18 6 0.8 5e8 =
        ["Market dependency", "Interest rate sensitivity"]
    ∧ fundRiskFactors 18 1 none =
        ["Market risk", "Interest rate risk", "Manager risk"] :=
  have h := c9_text_lists 18 0 0.5 3e9 1 100 100 0.8 1 5e8 6 none
  ⟨h.2.2.2.2.2.1 (by norm_num) (by norm_num) (by norm_num) (by norm_num),
   h.2.2.2.2.2.2.1 (by norm_num) (by norm_num) (by norm_num) (by norm_num),
   h.2.2.2.2.2.2.2.1 (by norm_num) (by norm_num) (by norm_num) (by norm_num)
     (by norm_num),
   h.2.2.2.2.2.2.2.2.1 (by norm_num) (by norm_num) (by norm_num) (by norm_num)
     (by norm_num),
   h.2.2.2.2.2.2.2.2.2 (by norm_num) (by norm_num) (by simp)⟩

end InvestAnalyze
